import Mathlib

/-!
Shallow embedding of the image-resize repository's core: the request data
model, the crop/resize/watermark/encode transformation steps, the cache-key
generation, the queue worker (processMessage / processJob), the batch
fan-out coordinator, and the validator.  Definitions are translated from the
Go source; external library behaviour that the source calls into
(Go image.Rect / Rectangle.Intersect, disintegration/imaging Crop, the
quality clamp inside the standard jpeg encoder) is modelled from those
libraries where the source's observable behaviour depends on it.
-/

set_option autoImplicit false
set_option maxRecDepth 40000

namespace ImageResize

/-! ### Data model (internal/models) -/

/-- Go struct models.ResizeRequest (internal/models/resize.go). -/
structure ResizeRequest where
  width : Int
  height : Int
  quality : Int
  format : String
deriving DecidableEq, Repr

/-- Go struct models.CropRequest (internal/models/crop.go). -/
structure CropRequest where
  x : Int
  y : Int
  width : Int
  height : Int
deriving DecidableEq, Repr

/-- Go struct models.WatermarkRequest (internal/models/batch.go); the float64
Opacity field is modelled as a rational number. -/
structure WatermarkRequest where
  text : String
  imageURL : String
  position : String
  opacity : ℚ
deriving DecidableEq, Repr

/-- Go struct models.AdvancedProcessingRequest: every block is an optional
pointer in the source, modelled with Option. -/
structure AdvancedProcessingRequest where
  resize : Option ResizeRequest
  crop : Option CropRequest
  watermark : Option WatermarkRequest
  compress : Bool
deriving DecidableEq, Repr

/-- Go struct models.ProcessedImage as built by the queue worker: identity,
original URL, produced size (width/height), output URL and byte length. -/
structure ProcessedImage where
  id : String
  originalURL : String
  width : Int
  height : Int
  url : String
  fileSize : Int
deriving DecidableEq, Repr

def statusPending : String := "pending"

def statusProcessing : String := "processing"

def statusCompleted : String := "completed"

def statusFailed : String := "failed"

/-- Go struct models.ProcessingJob (internal/models/processing_job.go). -/
structure ProcessingJob where
  id : String
  imageURL : String
  request : AdvancedProcessingRequest
  status : String
  result : Option ProcessedImage
  error : String
deriving DecidableEq, Repr

/-! ### Go image geometry (stdlib image.Point / image.Rectangle), used by
the crop step.  Translated from the Go standard library because the crop
code's observable clamping behaviour runs through image.Rect and
Rectangle.Intersect. -/

structure Point where
  x : Int
  y : Int
deriving DecidableEq, Repr

structure Rectangle where
  min : Point
  max : Point
deriving DecidableEq, Repr

/-- Go Rectangle.Dx. -/
def Rectangle.dx (r : Rectangle) : Int := r.max.x - r.min.x

/-- Go Rectangle.Dy. -/
def Rectangle.dy (r : Rectangle) : Int := r.max.y - r.min.y

/-- Go Rectangle.Empty: reports whether the rectangle contains no points. -/
def Rectangle.isEmpty (r : Rectangle) : Bool :=
  r.max.x ≤ r.min.x || r.max.y ≤ r.min.y

/-- Go image.ZR, the zero rectangle. -/
def zeroRect : Rectangle := ⟨⟨0, 0⟩, ⟨0, 0⟩⟩

/-- Go image.Rect: swaps the coordinates if necessary so the rectangle is
well-formed. -/
def imageRect (x0 y0 x1 y1 : Int) : Rectangle :=
  let p := if x0 > x1 then (x1, x0) else (x0, x1)
  let q := if y0 > y1 then (y1, y0) else (y0, y1)
  ⟨⟨p.1, q.1⟩, ⟨p.2, q.2⟩⟩

/-- Go Rectangle.Intersect: largest rectangle contained in both; the zero
rectangle if they do not overlap. -/
def Rectangle.intersect (r s : Rectangle) : Rectangle :=
  let t : Rectangle :=
    ⟨⟨Max.max r.min.x s.min.x, Max.max r.min.y s.min.y⟩,
     ⟨Min.min r.max.x s.max.x, Min.min r.max.y s.max.y⟩⟩
  if t.isEmpty then zeroRect else t

/-- Crop behaviour of the imaging library used by both crop implementations
(disintegration/imaging Crop): the requested rectangle is intersected with
the image bounds before any pixels are copied, and an empty intersection
yields an empty image, never an error.  The effective source region is the
value of interest here. -/
def imagingCropRegion (bounds rect : Rectangle) : Rectangle :=
  rect.intersect bounds

/-- Bounds of a decoded source image of the given size, as produced by
image.Decode: min corner at the origin. -/
def sourceBounds (w h : Int) : Rectangle := ⟨⟨0, 0⟩, ⟨w, h⟩⟩

/-! ### Crop step -/

/-- Crop step of the services package
(internal/services/image_processor.go, cropImage): the requested box is
clamped against the source bounds before building the crop rectangle, then
the imaging library crops.  Returns the effective source region cropped. -/
def cropImageServices (w h : Int) (req : CropRequest) : Rectangle :=
  let bounds := sourceBounds w h
  let x := max 0 (min req.x bounds.dx)
  let y := max 0 (min req.y bounds.dy)
  let width := min req.width (bounds.dx - x)
  let height := min req.height (bounds.dy - y)
  imagingCropRegion bounds (imageRect x y (x + width) (y + height))

/-- Crop step of the processor package
(internal/services/processor, cropImage): the raw request box is handed to
the imaging library, which intersects it with the source bounds.  Returns
the effective source region cropped. -/
def cropImageProcessor (w h : Int) (req : CropRequest) : Rectangle :=
  imagingCropRegion (sourceBounds w h)
    (imageRect req.x req.y (req.x + req.width) (req.y + req.height))

/-- The effective crop region lies inside the source bounds. -/
def withinBounds (w h : Int) (r : Rectangle) : Prop :=
  0 ≤ r.min.x ∧ 0 ≤ r.min.y ∧ r.max.x ≤ w ∧ r.max.y ≤ h ∧
    r.min.x ≤ r.max.x ∧ r.min.y ≤ r.max.y

/-! ### Quality resolution and encoder selection -/

/-- Quality resolution of the services package
(internal/services/image_processor.go, getQuality): a positive requested
quality is clamped to [1, 100]; otherwise the default 85. -/
def getQualityServices (req : AdvancedProcessingRequest) : Int :=
  match req.resize with
  | some rz => if rz.quality > 0 then Min.min 100 (Max.max 1 rz.quality) else 85
  | none => 85

/-- Quality resolution of the processor package
(internal/services/processor/image_processor.go, getQuality): a positive
requested quality is returned unchanged, with no clamp; otherwise the
default 85. -/
def getQualityProcessor (req : AdvancedProcessingRequest) : Int :=
  match req.resize with
  | some rz => if rz.quality > 0 then rz.quality else 85
  | none => 85

/-- Mirrors the quality clamp performed inside the standard library jpeg
encoder (image/jpeg, Encode): the options quality is forced into [1, 100]
before use. -/
def goJpegEncoderQuality (q : Int) : Int :=
  if q < 1 then 1 else if q > 100 then 100 else q

/-- Which encoder encodeImage hands the image to. -/
inductive EncoderChoice where
  | jpegEnc (quality : Int)
  | pngEnc
deriving DecidableEq, Repr

/-- A png encoding is lossless; a jpeg encoding is lossy. -/
def EncoderChoice.lossless : EncoderChoice → Bool
  | .jpegEnc _ => false
  | .pngEnc => true

/-- Encoder selection of encodeImage, identical in the processor package
(internal/services/processor/encoder.go) and the services package
(internal/services/image_processor.go): jpeg and jpg use the jpeg encoder at
the given quality, png uses the png encoder, webp falls back to the png
encoder, and every other format string falls to the default case, the jpeg
encoder.  No format string produces an unsupported-format error. -/
def encodeImageChoice (format : String) (quality : Int) : EncoderChoice :=
  if format = "jpeg" ∨ format = "jpg" then .jpegEnc quality
  else if format = "png" then .pngEnc
  else if format = "webp" then .pngEnc
  else .jpegEnc quality

/-! ### Watermark opacity -/

/-- Opacity clamp of the services package
(internal/services/image_processor.go, drawTextWatermark):
min(1.0, max(0.0, req.Opacity)). -/
def opacityClampServices (o : ℚ) : ℚ := Min.min 1 (Max.max 0 o)

/-- Argument of the uint8 conversion that yields the watermark alpha in the
services package: 255 * clamped opacity. -/
def alphaArgServices (o : ℚ) : ℚ := 255 * opacityClampServices o

/-- Argument of the uint8 conversion that yields the watermark alpha in the
processor package (internal/services/processor, addTextWatermark):
255 * opacity with the raw request opacity, no clamp. -/
def alphaArgProcessor (o : ℚ) : ℚ := 255 * o

/-! ### Queue worker (internal/services/queue/processor.go).
External effects are supplied by an oracle environment: the cache lookup
outcome, the download outcome, the ProcessImage outcome (output byte
length), and the storage save outcome (public URL). -/

/-- Oracle for the collaborator calls processJob makes.  The cache field is
the combined GetFromCache + json.Unmarshal outcome: some means a valid hit;
a miss, a cache error, or an unmarshal failure all continue identically in
the source and are modelled as none. -/
structure WorkerEnv where
  cache : Option ProcessedImage
  download : Except String Unit
  processOutcome : Except String Nat
  save : Except String String
deriving Repr

/-- Outcome of running processJob: a result, a returned error, or a Go
nil-pointer-dereference panic at the named site. -/
inductive RunOutcome where
  | ok (r : ProcessedImage)
  | err (e : String)
  | nilPanic (site : String)
deriving DecidableEq, Repr

/-- Worker processJob (internal/services/queue/processor.go): cache check,
download, ProcessImage, filename generation (which dereferences
job.Request.Resize with no nil check), storage save, result construction
(which reads job.Request.Resize.Width and .Height).  The cache set after a
successful save is best-effort and does not change the outcome. -/
def processJob (env : WorkerEnv) (job : ProcessingJob) : RunOutcome :=
  match env.cache with
  | some cachedResult => .ok cachedResult
  | none =>
    match env.download with
    | .error e => .err ("failed to download image: " ++ e)
    | .ok _ =>
      match env.processOutcome with
      | .error e => .err ("failed to process image: " ++ e)
      | .ok bufLen =>
        match job.request.resize with
        | none => .nilPanic "job.Request.Resize"
        | some rz =>
          match env.save with
          | .error e => .err ("failed to save processed image: " ++ e)
          | .ok url =>
            .ok { id := job.id, originalURL := job.imageURL,
                  width := rz.width, height := rz.height,
                  url := url, fileSize := Int.ofNat bufLen }

/-- Broker acknowledgment actions taken for one delivery.  ack models
msg.Ack(false); nack models msg.Nack(false, requeue). -/
inductive BrokerAction where
  | ack
  | nack (requeue : Bool)
deriving DecidableEq, Repr

/-- Observable outcome of processMessage for one delivery: the broker
actions issued, the terminal job handed to storeJobResult, and whether the
goroutine panicked (an unrecovered panic reaches no acknowledgment). -/
structure MessageResult where
  actions : List BrokerAction
  stored : Option ProcessingJob
  panicked : Bool
deriving DecidableEq, Repr

/-- Worker processMessage (internal/services/queue/processor.go): a payload
that fails to unmarshal is nacked without requeue and never acked; a payload
that unmarshals is marked processing, run through processJob, marked
completed or failed, acked once, and handed to storeJobResult.  A nil
dereference inside processJob propagates as a panic before the ack. -/
def processMessage (env : WorkerEnv) (payload : Option ProcessingJob) :
    MessageResult :=
  match payload with
  | none => { actions := [.nack false], stored := none, panicked := false }
  | some job =>
    let job1 := { job with status := statusProcessing }
    match processJob env job1 with
    | .nilPanic _ => { actions := [], stored := none, panicked := true }
    | .err e =>
      let failedJob := { job1 with status := statusFailed, error := e }
      { actions := [.ack], stored := some failedJob, panicked := false }
    | .ok r =>
      let doneJob := { job1 with status := statusCompleted, result := some r }
      { actions := [.ack], stored := some doneJob, panicked := false }

/-! ### Batch coordinator (internal/services/image_processor.go,
BatchResize and processImageJob).  The per-input ProcessImage outcome is an
oracle procFn returning the output buffer length on success. -/

/-- Services package constant DefaultWorkers. -/
def defaultWorkers : Nat := 5

/-- Worker-count computation of BatchResize: numWorkers starts at
DefaultWorkers and is lowered to len(files) when fewer files arrive. -/
def batchNumWorkers (numFiles : Nat) : Nat :=
  if numFiles < defaultWorkers then numFiles else defaultWorkers

/-- Go struct models.BatchImage (internal/models/batch.go); the Buffer
pointer is modelled by its byte length, none when nil. -/
structure BatchImage where
  buffer : Option Nat
  error : String
  fileSize : Int
deriving DecidableEq, Repr

/-- Worker body processImageJob: index out of range returns early leaving
the zero-value slot; otherwise the slot records either the processed buffer
and its length or the error string for that index. -/
def processImageJob {F : Type}
    (procFn : F → AdvancedProcessingRequest → Except String Nat)
    (i : Nat) (files : List F) (req : AdvancedProcessingRequest) :
    BatchImage :=
  if h : i < files.length then
    match procFn (files.get ⟨i, h⟩) req with
    | .error e =>
      { buffer := none,
        error := "failed to process image " ++ toString i ++ ": " ++ e,
        fileSize := 0 }
    | .ok n => { buffer := some n, error := "", fileSize := Int.ofNat n }
  else { buffer := none, error := "", fileSize := 0 }

/-- BatchResize: every index is queued exactly once on the jobs channel and
the worker that draws index i writes only results[i], so the returned slice
is, slot for slot, processImageJob at that index.  The function returns the
slice itself and has no error return. -/
def batchResize {F : Type}
    (procFn : F → AdvancedProcessingRequest → Except String Nat)
    (files : List F) (req : AdvancedProcessingRequest) : List BatchImage :=
  (List.range files.length).map (fun i => processImageJob procFn i files req)

/-! ### Validator of the processor package
(internal/services/processor/validator.go). -/

/-- Seekable file: contents (bytes) and current position, the state behind
multipart.File's io.Seeker. -/
structure SeekFile where
  contents : List Nat
  pos : Int
deriving DecidableEq, Repr

/-- Go io.Seeker Seek: whence 0 measures from the start, 1 from the current
position, 2 from the end; the new offset is returned. -/
def seekFile (f : SeekFile) (offset : Int) (whence : Nat) : SeekFile × Int :=
  let newPos :=
    if whence = 0 then offset
    else if whence = 1 then f.pos + offset
    else Int.ofNat f.contents.length + offset
  ({ f with pos := newPos }, newPos)

/-- The size value ValidateImage computes: Seek(0, 2) to the end with the
return value dropped, then the return value of Seek(0, 0). -/
def validateComputedSize (f : SeekFile) : Int :=
  let r1 := seekFile f 0 2
  (seekFile r1.1 0 0).2

/-- ValidateImage of the processor package: compares the computed size
against maxSize, then decodes; the oracle decodable is whether image.Decode
succeeds on the contents. -/
def validateImageProcessor (f : SeekFile) (maxSize : Int)
    (decodable : Bool) : Except String Unit :=
  let size := validateComputedSize f
  if size > maxSize then
    .error ("file size " ++ toString size ++
      " exceeds maximum allowed size " ++ toString maxSize)
  else if decodable then .ok ()
  else .error "invalid image format"

/-! ### Cache key (internal/services, StorageService.GenerateCacheKey).
The request is serialized into underscore-joined parts and hashed with
sha256; the hex digest is prefixed with the cache namespace. -/

/-- Round of the fraction a / b (with b positive) to the nearest integer,
ties to even, matching how Go formats the exactly-representable halfway
cases of a float at fixed precision. -/
def roundHalfEvenFrac (a b : Int) : Int :=
  let f := a.fdiv b
  let r := a - f * b
  if 2 * r < b then f
  else if b < 2 * r then f + 1
  else if f % 2 = 0 then f else f + 1

/-- Go fmt %.2f: optional sign, integer part, dot, exactly two fractional
digits of the value rounded to hundredths. -/
def fmtF2 (q : ℚ) : String :=
  let n := roundHalfEvenFrac (q.num * 100) (Int.ofNat q.den)
  let m := n.natAbs
  let sign := if n < 0 then "-" else ""
  let fracPart := m % 100
  let fracStr :=
    if fracPart < 10 then "0" ++ toString fracPart else toString fracPart
  sign ++ toString (m / 100) ++ "." ++ fracStr

/-- Resize fragment: fmt.Sprintf resize_%d_%d_%d_%s. -/
def resizeKeyPart (rz : ResizeRequest) : String :=
  "resize_" ++ toString rz.width ++ "_" ++ toString rz.height ++ "_" ++
    toString rz.quality ++ "_" ++ rz.format

/-- Crop fragment: fmt.Sprintf crop_%d_%d_%d_%d. -/
def cropKeyPart (c : CropRequest) : String :=
  "crop_" ++ toString c.x ++ "_" ++ toString c.y ++ "_" ++
    toString c.width ++ "_" ++ toString c.height

/-- Watermark fragment: fmt.Sprintf watermark_%s_%s_%.2f; the opacity is
formatted at two decimal places. -/
def watermarkKeyPart (wm : WatermarkRequest) : String :=
  "watermark_" ++ wm.text ++ "_" ++ wm.position ++ "_" ++ fmtF2 wm.opacity

/-- The keyParts slice: the original filename followed by one fragment per
present request block. -/
def cacheKeyParts (originalFilename : String)
    (request : AdvancedProcessingRequest) : List String :=
  [originalFilename] ++
    (match request.resize with | some rz => [resizeKeyPart rz] | none => []) ++
    (match request.crop with | some c => [cropKeyPart c] | none => []) ++
    (match request.watermark with
     | some wm => [watermarkKeyPart wm]
     | none => [])

/-- The combined canonical string: strings.Join(keyParts, underscore). -/
def cacheKeyCombined (originalFilename : String)
    (request : AdvancedProcessingRequest) : String :=
  String.intercalate "_" (cacheKeyParts originalFilename request)

/-! Sha-256 over byte lists, translated from the FIPS 180-4 algorithm the
Go crypto/sha256 package implements; words are naturals reduced mod 2^32. -/

def u32 (n : Nat) : Nat := n % 4294967296

def u8 (n : Nat) : Nat := n % 256

def rotr32 (x n : Nat) : Nat := u32 ((x >>> n) ||| (x <<< (32 - n)))

def bnot32 (x : Nat) : Nat := x ^^^ 4294967295

def ch32 (x y z : Nat) : Nat := (x &&& y) ^^^ (bnot32 x &&& z)

def maj32 (x y z : Nat) : Nat := (x &&& y) ^^^ (x &&& z) ^^^ (y &&& z)

def bigSig0 (x : Nat) : Nat := rotr32 x 2 ^^^ rotr32 x 13 ^^^ rotr32 x 22

def bigSig1 (x : Nat) : Nat := rotr32 x 6 ^^^ rotr32 x 11 ^^^ rotr32 x 25

def smallSig0 (x : Nat) : Nat := rotr32 x 7 ^^^ rotr32 x 18 ^^^ (x >>> 3)

def smallSig1 (x : Nat) : Nat := rotr32 x 17 ^^^ rotr32 x 19 ^^^ (x >>> 10)

def sha256K : List Nat :=
  [1116352408, 1899447441, 3049323471, 3921009573,
   961987163, 1508970993, 2453635748, 2870763221,
   3624381080, 310598401, 607225278, 1426881987,
   1925078388, 2162078206, 2614888103, 3248222580,
   3835390401, 4022224774, 264347078, 604807628,
   770255983, 1249150122, 1555081692, 1996064986,
   2554220882, 2821834349, 2952996808, 3210313671,
   3336571891, 3584528711, 113926993, 338241895,
   666307205, 773529912, 1294757372, 1396182291,
   1695183700, 1986661051, 2177026350, 2456956037,
   2730485921, 2820302411, 3259730800, 3345764771,
   3516065817, 3600352804, 4094571909, 275423344,
   430227734, 506948616, 659060556, 883997877,
   958139571, 1322822218, 1537002063, 1747873779,
   1955562222, 2024104815, 2227730452, 2361852424,
   2428436474, 2756734187, 3204031479, 3329325298]

/-- Big-endian packing of bytes into 32-bit words. -/
def bytesToWords : List Nat → List Nat
  | b0 :: b1 :: b2 :: b3 :: rest =>
    ((((b0 <<< 8) ||| b1) <<< 8 ||| b2) <<< 8 ||| b3) :: bytesToWords rest
  | _ => []

/-- Grouping of the word stream into 16-word blocks. -/
def toBlocks16 : List Nat → List (List Nat)
  | w0 :: w1 :: w2 :: w3 :: w4 :: w5 :: w6 :: w7 ::
    w8 :: w9 :: w10 :: w11 :: w12 :: w13 :: w14 :: w15 :: rest =>
    [w0, w1, w2, w3, w4, w5, w6, w7,
     w8, w9, w10, w11, w12, w13, w14, w15] :: toBlocks16 rest
  | _ => []

/-- Big-endian 8-byte encoding of the bit length. -/
def be64Bytes (n : Nat) : List Nat :=
  [u8 (n >>> 56), u8 (n >>> 48), u8 (n >>> 40), u8 (n >>> 32),
   u8 (n >>> 24), u8 (n >>> 16), u8 (n >>> 8), u8 n]

/-- Sha-256 padding: a 0x80 byte, zeros to 56 mod 64, then the bit length. -/
def padMessage (msg : List Nat) : List Nat :=
  let len := msg.length
  let zeros := (119 - len % 64) % 64
  msg ++ [128] ++ List.replicate zeros 0 ++ be64Bytes (len * 8)

/-- Message-schedule extension, carrying the schedule so far reversed so
the most recent word is at the head. -/
def extendLoop : Nat → List Nat → List Nat
  | 0, rws => rws.reverse
  | n + 1, rws =>
    let w := u32 (smallSig1 (rws.getD 1 0) + rws.getD 6 0 +
      smallSig0 (rws.getD 14 0) + rws.getD 15 0)
    extendLoop n (w :: rws)

/-- The 64-word message schedule of one block. -/
def msgSchedule (block : List Nat) : List Nat := extendLoop 48 block.reverse

/-- Working variables a through h of the compression function. -/
structure Hash8 where
  a : Nat
  b : Nat
  c : Nat
  d : Nat
  e : Nat
  f : Nat
  g : Nat
  h : Nat
deriving DecidableEq, Repr

/-- One compression round. -/
def sha256Round (st : Hash8) (kw : Nat × Nat) : Hash8 :=
  let t1 := u32 (st.h + bigSig1 st.e + ch32 st.e st.f st.g + kw.1 + kw.2)
  let t2 := u32 (bigSig0 st.a + maj32 st.a st.b st.c)
  ⟨u32 (t1 + t2), st.a, st.b, st.c, u32 (st.d + t1), st.e, st.f, st.g⟩

/-- Compression of one 16-word block into the running hash. -/
def compressBlock (st : Hash8) (block : List Nat) : Hash8 :=
  let fin := ((sha256K.zip (msgSchedule block)).foldl sha256Round st)
  ⟨u32 (st.a + fin.a), u32 (st.b + fin.b), u32 (st.c + fin.c),
   u32 (st.d + fin.d), u32 (st.e + fin.e), u32 (st.f + fin.f),
   u32 (st.g + fin.g), u32 (st.h + fin.h)⟩

/-- Initial hash value. -/
def sha256InitHash : Hash8 :=
  ⟨1779033703, 3144134277, 1013904242, 2773480762,
   1359893119, 2600822924, 528734635, 1541459225⟩

/-- The eight 32-bit digest words of a byte message. -/
def sha256Words (msg : List Nat) : List Nat :=
  let st := (toBlocks16 (bytesToWords (padMessage msg))).foldl
    compressBlock sha256InitHash
  [st.a, st.b, st.c, st.d, st.e, st.f, st.g, st.h]

/-- Lowercase hex digit. -/
def hexChar (n : Nat) : Char :=
  if n < 10 then Char.ofNat (48 + n) else Char.ofNat (87 + n)

/-- Lowercase, zero-padded hex of one 32-bit word, as Go %x renders the
digest bytes. -/
def wordHex (w : Nat) : String :=
  String.mk [hexChar ((w >>> 28) &&& 15), hexChar ((w >>> 24) &&& 15),
             hexChar ((w >>> 20) &&& 15), hexChar ((w >>> 16) &&& 15),
             hexChar ((w >>> 12) &&& 15), hexChar ((w >>> 8) &&& 15),
             hexChar ((w >>> 4) &&& 15), hexChar (w &&& 15)]

/-- Hex digest of a byte message. -/
def sha256Hex (msg : List Nat) : String :=
  String.join ((sha256Words msg).map wordHex)

/-- Byte view of a string; the strings hashed here are ASCII, where the
code points coincide with the UTF-8 bytes Go hashes. -/
def strBytes (s : String) : List Nat := s.data.map Char.toNat

/-- GenerateCacheKey (internal/services, StorageService): the namespace
marker img_cache: followed by the hex sha256 of the combined canonical
string. -/
def GenerateCacheKey (originalFilename : String)
    (request : AdvancedProcessingRequest) : String :=
  "img_cache:" ++ sha256Hex (strBytes (cacheKeyCombined originalFilename request))

/-! ### Concrete inputs used by counterexamples and witnesses -/

/-- A request with no resize block, which the data model allows. -/
def noResizeRequest : AdvancedProcessingRequest := ⟨none, none, none, false⟩

/-- A well-formed job whose request carries no resize block. -/
def jobNoResize : ProcessingJob :=
  ⟨"job-1", "http://example.com/a.png", noResizeRequest, statusPending,
   none, ""⟩

/-- Oracle run where the cache misses and download, pipeline and save all
succeed. -/
def envHappyPath : WorkerEnv :=
  ⟨none, .ok (), .ok 10, .ok "http://cdn/out.png"⟩

/-- Oracle run where the cache misses, download and pipeline succeed, and
the storage save fails. -/
def envUploadFails : WorkerEnv :=
  ⟨none, .ok (), .ok 42, .error "upload failed"⟩

/-- A well-formed job whose request carries a resize block. -/
def jobWithResize : ProcessingJob :=
  ⟨"job-2", "http://example.com/b.png",
   ⟨some ⟨100, 100, 80, "jpeg"⟩, none, none, false⟩, statusPending,
   none, ""⟩

/-- A resize-only request at quality 85. -/
def reqQuality85 : AdvancedProcessingRequest :=
  ⟨some ⟨800, 600, 85, "jpeg"⟩, none, none, false⟩

/-- The same request with only the quality changed to 86. -/
def reqQuality86 : AdvancedProcessingRequest :=
  ⟨some ⟨800, 600, 86, "jpeg"⟩, none, none, false⟩

/-- The rational 0.123, given in lowest terms so that its numerator and
denominator are kernel-reducible. -/
def opacityLow : ℚ := ⟨123, 1000, by decide, by decide⟩

/-- The rational 0.124 in lowest terms. -/
def opacityHigh : ℚ := ⟨31, 250, by decide, by decide⟩

/-- A request with watermark opacity 0.123. -/
def reqOpacityA : AdvancedProcessingRequest :=
  ⟨some ⟨800, 600, 85, "jpeg"⟩, none,
   some ⟨"sample", "", "center", opacityLow⟩, false⟩

/-- The same request with only the watermark opacity changed to 0.124. -/
def reqOpacityB : AdvancedProcessingRequest :=
  ⟨some ⟨800, 600, 85, "jpeg"⟩, none,
   some ⟨"sample", "", "center", opacityHigh⟩, false⟩

/-- A request with resize quality 150, above the jpeg range. -/
def reqQuality150 : AdvancedProcessingRequest :=
  ⟨some ⟨800, 600, 150, "jpeg"⟩, none, none, false⟩

/-! ### Theorems -/

theorem intersect_withinBounds (w h : Int) (hw : 0 ≤ w) (hh : 0 ≤ h)
    (rect : Rectangle) :
    withinBounds w h (imagingCropRegion (sourceBounds w h) rect) := by
  unfold imagingCropRegion Rectangle.intersect sourceBounds withinBounds
  dsimp [Rectangle.isEmpty]
  split
  · exact ⟨le_refl 0, le_refl 0, hw, hh, le_refl 0, le_refl 0⟩
  · rename_i hne
    rw [Bool.or_eq_true, decide_eq_true_eq, decide_eq_true_eq] at hne
    push_neg at hne
    dsimp
    omega

/-- Claim C1: for every source image and crop request, both crop
implementations clamp the effective crop region to the source bounds
[0, sourceWidth] x [0, sourceHeight] before copying pixels, and an
out-of-range request never raises an error (the crop functions are total
and return a region, possibly empty); in particular a 1920x1080 source with
crop x 0, y 0, width 3000, height 3000 yields the effective crop
1920x1080. -/
theorem crop_clamped_to_source_bounds :
    (∀ (w h : Int) (req : CropRequest), 0 ≤ w → 0 ≤ h →
      withinBounds w h (cropImageServices w h req) ∧
      withinBounds w h (cropImageProcessor w h req)) ∧
    cropImageServices 1920 1080 ⟨0, 0, 3000, 3000⟩ = sourceBounds 1920 1080 ∧
    cropImageProcessor 1920 1080 ⟨0, 0, 3000, 3000⟩ = sourceBounds 1920 1080 ∧
    (cropImageServices 1920 1080 ⟨0, 0, 3000, 3000⟩).dx = 1920 ∧
    (cropImageServices 1920 1080 ⟨0, 0, 3000, 3000⟩).dy = 1080 := by
  refine ⟨fun w h req hw hh => ⟨?_, ?_⟩, by decide, by decide, by decide,
    by decide⟩
  · exact intersect_withinBounds w h hw hh _
  · exact intersect_withinBounds w h hw hh _

/-- Witness for C1: the clamping theorem applied to a concrete 1920x1080
source and a far out-of-range crop request. -/
theorem crop_clamped_to_source_bounds_witness :
    withinBounds 1920 1080 (cropImageServices 1920 1080 ⟨-50, 9000, 99999, 99999⟩) :=
  (crop_clamped_to_source_bounds.1 1920 1080 ⟨-50, 9000, 99999, 99999⟩
    (by decide) (by decide)).1

/-- Claim C10: the size the processor package ValidateImage computes is the
return value of Seek(0, 0), which is 0 for every file, so with any
maxSize at least 0 the oversize rejection never fires and the validator
accepts exactly the decodable files. -/
theorem validate_size_never_rejects :
    (∀ f : SeekFile, validateComputedSize f = 0) ∧
    (∀ (f : SeekFile) (maxSize : Int) (decodable : Bool), 0 ≤ maxSize →
      validateImageProcessor f maxSize decodable =
        (if decodable then Except.ok () else Except.error "invalid image format")) := by
  constructor
  · intro f
    rfl
  · intro f maxSize decodable hms
    unfold validateImageProcessor
    have hz : validateComputedSize f = 0 := rfl
    rw [hz, if_neg (by omega)]

/-- Witness for C10: a 5-megabyte-content file against a 10-byte limit is
still accepted when decodable. -/
theorem validate_size_never_rejects_witness :
    validateImageProcessor ⟨List.replicate 5000000 7, 0⟩ 10 true = Except.ok () := by
  rw [validate_size_never_rejects.2 ⟨List.replicate 5000000 7, 0⟩ 10 true (by decide)]
  rfl

/-- Counterexample for C7: the processor package addTextWatermark feeds
255 * opacity with the raw request opacity into the uint8 conversion; at
opacity 1.5 that argument is 382.5, not the 255 a [0,1] clamp would give,
so the alpha is not derived from a clamped opacity there. -/
theorem opacity_clamp_counterexample :
    alphaArgProcessor (3/2) = 765/2 ∧
    alphaArgProcessor (3/2) ≠ alphaArgServices (3/2) ∧
    alphaArgServices (3/2) = 255 := by
  refine ⟨by norm_num [alphaArgProcessor], ?_, ?_⟩
  · norm_num [alphaArgProcessor, alphaArgServices, opacityClampServices]
  · norm_num [alphaArgServices, opacityClampServices]

/-- Claim C7 amended: the services package drawTextWatermark derives the
alpha from opacity clamped to [0,1] (1.5 becomes 1.0 and -0.2 becomes 0.0,
and the conversion argument stays within [0, 255]); the processor package
addTextWatermark applies no clamp and uses 255 * opacity with the raw
opacity. -/
theorem opacity_clamp_amended :
    (∀ o : ℚ, 0 ≤ opacityClampServices o ∧ opacityClampServices o ≤ 1) ∧
    opacityClampServices (3/2) = 1 ∧
    opacityClampServices (-1/5) = 0 ∧
    (∀ o : ℚ, 0 ≤ alphaArgServices o ∧ alphaArgServices o ≤ 255) ∧
    (∀ o : ℚ, alphaArgProcessor o = 255 * o) := by
  have hcl : ∀ o : ℚ, 0 ≤ opacityClampServices o ∧ opacityClampServices o ≤ 1 := by
    intro o
    unfold opacityClampServices
    constructor
    · exact le_min zero_le_one (le_max_left 0 o)
    · exact min_le_left 1 _
  refine ⟨hcl, by norm_num [opacityClampServices], by norm_num [opacityClampServices], ?_, fun o => rfl⟩
  intro o
  have h := hcl o
  unfold alphaArgServices
  constructor
  · exact mul_nonneg (by norm_num) h.1
  · nlinarith [h.1, h.2]

/-- Counterexample for C6: the format string gif is not a recognized target
format, yet encodeImage falls to the default case and encodes with the
jpeg encoder, a lossy encoding, not a lossless one. -/
theorem encode_fallback_counterexample :
    encodeImageChoice "gif" 85 = EncoderChoice.jpegEnc 85 ∧
    (encodeImageChoice "gif" 85).lossless = false := by
  constructor <;> rfl

/-- Claim C6 amended: no format string makes encodeImage return an
unsupported-format error, and the recognized-but-unsupported webp falls
back to the lossless png encoder; but every other unrecognized format
string falls to the default case, the lossy jpeg encoder at the resolved
quality. -/
theorem encode_fallback_amended :
    (∀ q : Int, encodeImageChoice "webp" q = EncoderChoice.pngEnc) ∧
    (∀ (fmt : String) (q : Int), fmt ≠ "jpeg" → fmt ≠ "jpg" → fmt ≠ "png" →
      fmt ≠ "webp" → encodeImageChoice fmt q = EncoderChoice.jpegEnc q) ∧
    (∀ (fmt : String) (q : Int), encodeImageChoice fmt q = EncoderChoice.pngEnc ∨
      encodeImageChoice fmt q = EncoderChoice.jpegEnc q) := by
  refine ⟨fun q => rfl, ?_, ?_⟩
  · intro fmt q h1 h2 h3 h4
    unfold encodeImageChoice
    rw [if_neg (by simp [h1, h2]), if_neg h3, if_neg h4]
  · intro fmt q
    unfold encodeImageChoice
    split
    · exact Or.inr rfl
    · split
      · exact Or.inl rfl
      · split
        · exact Or.inl rfl
        · exact Or.inr rfl

/-- Witness for C6 amended: the unrecognized format bmp encodes through the
default jpeg case. -/
theorem encode_fallback_amended_witness :
    encodeImageChoice "bmp" 90 = EncoderChoice.jpegEnc 90 :=
  encode_fallback_amended.2.1 "bmp" 90 (by decide) (by decide) (by decide)
    (by decide)

/-- Counterexample for C5: the processor package getQuality performs no
clamp, so a requested quality of 150 is passed to the jpeg encoder as 150,
not as 100. -/
theorem quality_clamp_counterexample :
    getQualityProcessor reqQuality150 = 150 ∧ (150 : Int) ≠ 100 := by
  constructor <;> decide

/-- Claim C5 amended: the services package getQuality clamps a positive
requested quality to [1, 100] (above 100 becomes 100) and defaults to 85
when the request has no positive quality; the processor package getQuality
applies the same default but returns a positive quality unclamped, and the
clamp to [1, 100] then happens only inside the standard jpeg encoder. -/
theorem quality_clamp_amended :
    (∀ req : AdvancedProcessingRequest,
      1 ≤ getQualityServices req ∧ getQualityServices req ≤ 100) ∧
    (∀ (req : AdvancedProcessingRequest) (rz : ResizeRequest),
      req.resize = some rz → rz.quality > 100 → getQualityServices req = 100) ∧
    (∀ (req : AdvancedProcessingRequest) (rz : ResizeRequest),
      req.resize = some rz → rz.quality ≤ 0 →
      getQualityServices req = 85 ∧ getQualityProcessor req = 85) ∧
    (∀ req : AdvancedProcessingRequest, req.resize = none →
      getQualityServices req = 85 ∧ getQualityProcessor req = 85) ∧
    (∀ (req : AdvancedProcessingRequest) (rz : ResizeRequest),
      req.resize = some rz → rz.quality > 0 →
      getQualityProcessor req = rz.quality) ∧
    (∀ req : AdvancedProcessingRequest,
      1 ≤ goJpegEncoderQuality (getQualityProcessor req) ∧
      goJpegEncoderQuality (getQualityProcessor req) ≤ 100) := by
  refine ⟨?_, ?_, ?_, ?_, ?_, ?_⟩
  · intro req
    unfold getQualityServices
    cases req.resize with
    | none => dsimp only; omega
    | some rz =>
      dsimp only
      split
      · constructor
        · exact le_min (by omega) (le_max_left 1 rz.quality)
        · exact min_le_left 100 _
      · omega
  · intro req rz hrz hq
    unfold getQualityServices
    rw [hrz]
    dsimp only
    rw [if_pos (by omega)]
    omega
  · intro req rz hrz hq
    unfold getQualityServices getQualityProcessor
    rw [hrz]
    dsimp only
    rw [if_neg (by omega), if_neg (by omega)]
    exact ⟨rfl, rfl⟩
  · intro req hrz
    unfold getQualityServices getQualityProcessor
    rw [hrz]
    exact ⟨rfl, rfl⟩
  · intro req rz hrz hq
    unfold getQualityProcessor
    rw [hrz]
    dsimp only
    rw [if_pos hq]
  · intro req
    unfold goJpegEncoderQuality
    split
    · omega
    · split
      · omega
      · omega

/-- Witness for C5 amended: at requested quality 150 the services package
passes 100 and the processor package passes 150, which the standard encoder
then clamps into range. -/
theorem quality_clamp_amended_witness :
    getQualityServices reqQuality150 = 100 ∧
    getQualityProcessor reqQuality150 = 150 ∧
    1 ≤ goJpegEncoderQuality (getQualityProcessor reqQuality150) ∧
    goJpegEncoderQuality (getQualityProcessor reqQuality150) ≤ 100 :=
  ⟨quality_clamp_amended.2.1 reqQuality150 ⟨800, 600, 150, "jpeg"⟩ rfl
      (by decide),
   quality_clamp_amended.2.2.2.2.1 reqQuality150 ⟨800, 600, 150, "jpeg"⟩ rfl
      (by decide),
   (quality_clamp_amended.2.2.2.2.2 reqQuality150).1,
   (quality_clamp_amended.2.2.2.2.2 reqQuality150).2⟩

theorem processMessage_none (env : WorkerEnv) :
    processMessage env none = ⟨[BrokerAction.nack false], none, false⟩ := rfl

theorem processMessage_of_err (env : WorkerEnv) (job : ProcessingJob)
    (e : String)
    (hp : processJob env { job with status := statusProcessing } =
      RunOutcome.err e) :
    processMessage env (some job) =
      ⟨[BrokerAction.ack],
       some { job with status := statusFailed, error := e }, false⟩ := by
  simp only [processMessage, hp]

theorem processMessage_of_ok (env : WorkerEnv) (job : ProcessingJob)
    (r : ProcessedImage)
    (hp : processJob env { job with status := statusProcessing } =
      RunOutcome.ok r) :
    processMessage env (some job) =
      ⟨[BrokerAction.ack],
       some { job with status := statusCompleted, result := some r },
       false⟩ := by
  simp only [processMessage, hp]

theorem processMessage_of_panic (env : WorkerEnv) (job : ProcessingJob)
    (site : String)
    (hp : processJob env { job with status := statusProcessing } =
      RunOutcome.nilPanic site) :
    processMessage env (some job) = ⟨[], none, true⟩ := by
  simp only [processMessage, hp]

/-- Counterexample for C2: a payload that deserializes (a well-formed job
whose request has no resize block) on a cache-miss run with download and
pipeline succeeding is never acknowledged: the nil dereference panics the
worker before the acknowledgment, so the delivery sees zero acks and is
left to redelivery. -/
theorem ack_exactly_once_counterexample :
    (processMessage envHappyPath (some jobNoResize)).actions = [] ∧
    (processMessage envHappyPath (some jobNoResize)).actions ≠
      [BrokerAction.ack] ∧
    (processMessage envHappyPath (some jobNoResize)).panicked = true := by
  refine ⟨rfl, by decide, rfl⟩

/-- Claim C2 amended: a delivery whose payload fails to deserialize is
nacked exactly once with requeue false and never acked; a delivery whose
payload deserializes is acknowledged exactly once, with the job recorded
failed or completed according to the processing outcome, provided
processJob returns normally instead of panicking on a nil Resize
dereference. -/
theorem ack_discipline_amended :
    (∀ env : WorkerEnv,
      processMessage env none = ⟨[BrokerAction.nack false], none, false⟩) ∧
    (∀ (env : WorkerEnv) (job : ProcessingJob),
      (∀ site, processJob env { job with status := statusProcessing } ≠
        RunOutcome.nilPanic site) →
      (processMessage env (some job)).actions = [BrokerAction.ack]) ∧
    (∀ (env : WorkerEnv) (job : ProcessingJob) (e : String),
      processJob env { job with status := statusProcessing } =
        RunOutcome.err e →
      (processMessage env (some job)).stored.map ProcessingJob.status =
        some statusFailed) ∧
    (∀ (env : WorkerEnv) (job : ProcessingJob) (r : ProcessedImage),
      processJob env { job with status := statusProcessing } =
        RunOutcome.ok r →
      (processMessage env (some job)).stored.map ProcessingJob.status =
        some statusCompleted) := by
  refine ⟨fun env => rfl, ?_, ?_, ?_⟩
  · intro env job hnp
    cases hp : processJob env { job with status := statusProcessing } with
    | nilPanic site => exact absurd hp (hnp site)
    | err e => rw [processMessage_of_err env job e hp]
    | ok r => rw [processMessage_of_ok env job r hp]
  · intro env job e hp
    rw [processMessage_of_err env job e hp]
    rfl
  · intro env job r hp
    rw [processMessage_of_ok env job r hp]
    rfl

/-- Witness for C2 amended: a delivery carrying a resize job through the
upload-failing run is still acknowledged exactly once. -/
theorem ack_discipline_amended_witness :
    (processMessage envUploadFails (some jobWithResize)).actions =
      [BrokerAction.ack] :=
  ack_discipline_amended.2.1 envUploadFails jobWithResize
    (fun site h => by simp [processJob, envUploadFails, jobWithResize] at h)

/-- Counterexample for C3: on a run where the pipeline succeeds and the
storage save fails, the stored terminal job is marked failed with no
result, not completed with an empty output URL. -/
theorem upload_failure_completed_counterexample :
    (processMessage envUploadFails (some jobWithResize)).stored.map
      ProcessingJob.status = some statusFailed ∧
    (processMessage envUploadFails (some jobWithResize)).stored.map
      ProcessingJob.status ≠ some statusCompleted ∧
    (processMessage envUploadFails (some jobWithResize)).stored.map
      ProcessingJob.result = some none := by
  refine ⟨rfl, by decide, rfl⟩

/-- Claim C3 amended: when the transformation pipeline succeeds but the
storage save fails, processJob returns the save error, and the worker marks
the job failed with that error and no result — not completed with an empty
URL — while still acknowledging the delivery once. -/
theorem upload_failure_marks_job_failed :
    ∀ (env : WorkerEnv) (job : ProcessingJob) (rz : ResizeRequest)
      (n : Nat) (e : String),
      job.request.resize = some rz → job.result = none → env.cache = none →
      env.download = Except.ok () → env.processOutcome = Except.ok n →
      env.save = Except.error e →
      processJob env job =
        RunOutcome.err ("failed to save processed image: " ++ e) ∧
      (processMessage env (some job)).actions = [BrokerAction.ack] ∧
      (processMessage env (some job)).stored.map ProcessingJob.status =
        some statusFailed ∧
      (processMessage env (some job)).stored.map ProcessingJob.result =
        some none := by
  intro env job rz n e hrz hres hc hd hp hs
  have key : ∀ j : ProcessingJob, j.request.resize = some rz →
      processJob env j =
        RunOutcome.err ("failed to save processed image: " ++ e) := by
    intro j hj
    unfold processJob
    rw [hc, hd, hp, hj, hs]
  have hmsg := processMessage_of_err env job
    ("failed to save processed image: " ++ e) (key _ hrz)
  refine ⟨key job hrz, ?_, ?_, ?_⟩ <;> rw [hmsg] <;> simp [hres]

/-- Witness for C3 amended: the concrete upload-failing run on a resize
job. -/
theorem upload_failure_marks_job_failed_witness :
    processJob envUploadFails jobWithResize =
      RunOutcome.err "failed to save processed image: upload failed" ∧
    (processMessage envUploadFails (some jobWithResize)).stored.map
      ProcessingJob.status = some statusFailed := by
  have h := upload_failure_marks_job_failed envUploadFails jobWithResize
    ⟨100, 100, 80, "jpeg"⟩ 42 "upload failed" rfl rfl rfl rfl rfl rfl
  exact ⟨h.1, h.2.2.1⟩

/-- Claim C9: processJob is only safe when the job's request carries a
resize block; with Resize nil and a cache miss, the run that survives
download and pipeline dereferences the nil Resize pointer at the output
filename generation and panics, so such a job — whose resize spec the data
model declares optional — never returns a successful result. -/
theorem nil_resize_panic :
    (∀ (env : WorkerEnv) (job : ProcessingJob),
      job.request.resize = none → env.cache = none →
      env.download = Except.ok () →
      (∃ n, env.processOutcome = Except.ok n) →
      processJob env job = RunOutcome.nilPanic "job.Request.Resize") ∧
    (∀ (env : WorkerEnv) (job : ProcessingJob) (r : ProcessedImage),
      job.request.resize = none → env.cache = none →
      processJob env job ≠ RunOutcome.ok r) ∧
    (∃ req : AdvancedProcessingRequest, req.resize = none) := by
  refine ⟨?_, ?_, ⟨noResizeRequest, rfl⟩⟩
  · intro env job hrz hc hd hex
    obtain ⟨n, hp⟩ := hex
    unfold processJob
    rw [hc, hd, hp, hrz]
  · intro env job r hrz hc
    unfold processJob
    rw [hc]
    cases hd : env.download with
    | error e => simp
    | ok u =>
      cases hp : env.processOutcome with
      | error e => simp
      | ok n =>
        rw [hrz]
        simp

/-- Witness for C9: the happy-path oracle run on the concrete no-resize
job panics at the nil Resize dereference. -/
theorem nil_resize_panic_witness :
    processJob envHappyPath jobNoResize =
      RunOutcome.nilPanic "job.Request.Resize" :=
  nil_resize_panic.1 envHappyPath jobNoResize rfl rfl rfl ⟨10, rfl⟩

/-- Claim C8: the batch coordinator uses min(5, K) workers for K inputs,
returns one slot per input, each slot depends only on its own input, a
failing slot records its error string without disturbing sibling slots,
and the aggregate call itself always returns the slice (it has no error
return); concretely, five inputs with exactly one corrupt one yield four
successful slots and one decode-error slot. -/
theorem batch_fanout_partial_failure :
    (∀ k : Nat, batchNumWorkers k = Min.min defaultWorkers k) ∧
    (∀ (F : Type) (procFn : F → AdvancedProcessingRequest → Except String Nat)
      (files : List F) (req : AdvancedProcessingRequest),
      (batchResize procFn files req).length = files.length) ∧
    (∀ (F : Type) (procFn : F → AdvancedProcessingRequest → Except String Nat)
      (files files₂ : List F) (req : AdvancedProcessingRequest) (i : Nat)
      (h : i < files.length) (h₂ : i < files₂.length),
      files.get ⟨i, h⟩ = files₂.get ⟨i, h₂⟩ →
      processImageJob procFn i files req = processImageJob procFn i files₂ req) ∧
    (∀ (F : Type) (procFn : F → AdvancedProcessingRequest → Except String Nat)
      (files : List F) (req : AdvancedProcessingRequest) (i : Nat),
      i < files.length →
      (batchResize procFn files req)[i]? =
        some (processImageJob procFn i files req)) ∧
    batchResize
      (fun (f : String) _ =>
        if f = "bad" then Except.error "decode failed" else Except.ok 7)
      ["a", "b", "bad", "c", "d"] noResizeRequest =
      [⟨some 7, "", 7⟩, ⟨some 7, "", 7⟩,
       ⟨none, "failed to process image 2: decode failed", 0⟩,
       ⟨some 7, "", 7⟩, ⟨some 7, "", 7⟩] := by
  refine ⟨?_, ?_, ?_, ?_, by decide⟩
  · intro k
    unfold batchNumWorkers defaultWorkers
    split <;> omega
  · intro F procFn files req
    simp [batchResize]
  · intro F procFn files files₂ req i h h₂ hg
    unfold processImageJob
    rw [dif_pos h, dif_pos h₂, hg]
  · intro F procFn files req i h
    unfold batchResize
    rw [List.getElem?_map, List.getElem?_range h, Option.map_some']

/-- Witness for C8: slot 1 of a two-input batch is untouched by replacing
the other input. -/
theorem batch_fanout_partial_failure_witness :
    processImageJob
      (fun (f : String) _ =>
        if f = "bad" then Except.error "decode failed" else Except.ok 7)
      1 ["bad", "ok"] noResizeRequest =
    processImageJob
      (fun (f : String) _ =>
        if f = "bad" then Except.error "decode failed" else Except.ok 7)
      1 ["fine", "ok"] noResizeRequest :=
  batch_fanout_partial_failure.2.2.1 String
    (fun (f : String) _ =>
      if f = "bad" then Except.error "decode failed" else Except.ok 7)
    ["bad", "ok"] ["fine", "ok"] noResizeRequest 1 (by decide) (by decide)
    rfl

/-- Counterexample for C4: two requests that differ in a single field — the
watermark opacity, 0.123 against 0.124 — receive the same cache key,
because the canonical serialization formats opacity at two decimal places
before hashing. -/
theorem cache_key_single_field_counterexample :
    reqOpacityA ≠ reqOpacityB ∧
    reqOpacityA.resize = reqOpacityB.resize ∧
    reqOpacityA.crop = reqOpacityB.crop ∧
    reqOpacityA.compress = reqOpacityB.compress ∧
    reqOpacityA.watermark.map WatermarkRequest.opacity ≠
      reqOpacityB.watermark.map WatermarkRequest.opacity ∧
    GenerateCacheKey "photo.png" reqOpacityA =
      GenerateCacheKey "photo.png" reqOpacityB := by
  refine ⟨by decide, rfl, rfl, rfl, by decide, ?_⟩
  have h : cacheKeyCombined "photo.png" reqOpacityA =
      cacheKeyCombined "photo.png" reqOpacityB := by decide
  unfold GenerateCacheKey
  rw [h]

/-- Claim C4 amended: the cache key is deterministic — equal inputs always
give equal keys, and the key depends only on the canonical serialization,
so any two requests with equal canonical strings (equal up to the two
decimal places kept of the opacity, and regardless of the compress flag,
which is never serialized) share a key; a quality change 85 to 86 changes
the canonical string and, concretely, the sha256 key. -/
theorem cache_key_deterministic_amended :
    (∀ (f : String) (r : AdvancedProcessingRequest),
      GenerateCacheKey f r = GenerateCacheKey f r) ∧
    (∀ (f f₂ : String) (r r₂ : AdvancedProcessingRequest),
      cacheKeyCombined f r = cacheKeyCombined f₂ r₂ →
      GenerateCacheKey f r = GenerateCacheKey f₂ r₂) ∧
    cacheKeyCombined "photo.png" reqQuality85 ≠
      cacheKeyCombined "photo.png" reqQuality86 ∧
    GenerateCacheKey "photo.png" reqQuality85 ≠
      GenerateCacheKey "photo.png" reqQuality86 := by
  refine ⟨fun f r => rfl, ?_, by decide, by decide⟩
  intro f f₂ r r₂ h
  unfold GenerateCacheKey
  rw [h]

/-- Witness for C4 amended: two requests differing only in the compress
flag have equal canonical strings, hence equal keys. -/
theorem cache_key_deterministic_amended_witness :
    GenerateCacheKey "a.png" ⟨none, none, none, false⟩ =
      GenerateCacheKey "a.png" ⟨none, none, none, true⟩ :=
  cache_key_deterministic_amended.2.1 "a.png" "a.png"
    ⟨none, none, none, false⟩ ⟨none, none, none, true⟩ (by decide)

end ImageResize
